import Mathlib

set_option maxRecDepth 10000

/-!
Shallow embedding of the MediMatch drug-interaction API route
(`src/app/api/.../route.ts` style handler): input normalization, the
four-sub-query lookup over two schema shapes and two name orders, the
three-candidate table loop, and the POST handler with its validation and
fallback paths.

Modelling notes, each tied to the source:
* `normalizeDrugName` is `drug.toLowerCase().trim()`.
* `normalizeSeverity` is the case-insensitive substring test with the
  Major > Moderate > Minor > None priority.
* The store is a list of named tables; for each table, selecting the
  legacy columns (`drug1,drug2,severity,description,interaction`) or the
  DDInter columns (`primary_drug_name,...`) either throws (network /
  policy exception), yields a Supabase error result, or yields the rows
  of that schema view.  `ilike` filtering and `limit(1)` are applied by
  the query model itself, with full SQL LIKE pattern semantics.
* The TypeScript casts `firstA.data[0] as DrugInteraction` and
  `interaction.severity as ...` are unchecked at runtime, so the
  `severity` field is modelled as `String`: the handler returns whatever
  string the store held for a legacy-shape match.
-/

namespace MediMatch

/-- JavaScript `toLowerCase`, character by character (structural, so that
concrete runs reduce in the kernel). -/
def jsToLower (s : String) : String :=
  ⟨s.data.map Char.toLower⟩

/-- JavaScript `trim`: drop leading and trailing whitespace. -/
def jsTrim (s : String) : String :=
  ⟨((s.data.dropWhile Char.isWhitespace).reverse.dropWhile
      Char.isWhitespace).reverse⟩

/-- SQL LIKE matching over characters: percent matches any sequence (the
rest of the pattern must match some suffix of the text), underscore
matches exactly one character, anything else matches itself. -/
def likeMatch : List Char → List Char → Bool
  | [], cs => cs.isEmpty
  | p :: ps, cs =>
    if p = '%' then
      cs.tails.any (fun suffix => likeMatch ps suffix)
    else
      match cs with
      | [] => false
      | c :: cs2 => (if p = '_' then true else p == c) && likeMatch ps cs2

/-- Postgres ILIKE: case-insensitive LIKE (both sides lower-cased). -/
def ilikeMatch (field pattern : String) : Bool :=
  likeMatch (jsToLower pattern).data (jsToLower field).data

/-- Substring containment on character lists (JavaScript `includes`). -/
def containsSub (sub : List Char) : List Char → Bool
  | [] => sub.isEmpty
  | c :: rest => sub.isPrefixOf (c :: rest) || containsSub sub rest

/-- JavaScript `s.includes(sub)`. -/
def strContains (s sub : String) : Bool :=
  containsSub sub.data s.data

/-- Source: `drug.toLowerCase().trim()`. -/
def normalizeDrugName (drug : String) : String :=
  jsTrim (jsToLower drug)

/-- Source: map free-form severity text to the narrow union.
The argument models `string | undefined | null` (`none` is null/undefined);
`(sev || "")` collapses absence and the empty string. -/
def normalizeSeverity (sev : Option String) : String :=
  let s := jsToLower (sev.getD "")
  if strContains s "major" then "Major"
  else if strContains s "moderate" then "Moderate"
  else if strContains s "minor" then "Minor"
  else "None"

/-- The canonical object the handler returns to the UI.  `severity` is a
runtime string: the TypeScript union annotation is enforced only by
unchecked casts in the source. -/
structure DrugInteraction where
  drug1 : String
  drug2 : String
  severity : String
  description : Option String
  interaction : Option String
  deriving DecidableEq, Repr

/-- A row as returned by selecting the legacy columns
`drug1,drug2,severity,description,interaction`. -/
structure LegacyRow where
  drug1 : String
  drug2 : String
  severity : String
  description : Option String
  interaction : Option String
  deriving DecidableEq, Repr

/-- A row as returned by selecting the DDInter-like columns
`primary_drug_name,secondary_drug_name,interaction_severity`. -/
structure DDInterRow where
  primary_drug_name : String
  secondary_drug_name : String
  interaction_severity : String
  deriving DecidableEq, Repr

/-- Outcome of one Supabase select: a thrown exception, an error result
(`.error` set, as for a missing table or column), or the rows visible
through the selected columns. -/
inductive QRes (α : Type) where
  | thrown : QRes α
  | err : QRes α
  | rows : List α → QRes α
  deriving DecidableEq, Repr

/-- A named table together with how selects against each column set behave. -/
structure Table where
  name : String
  colsA : QRes LegacyRow
  colsB : QRes DDInterRow
  deriving DecidableEq, Repr

abbrev Store := List Table

def lookupTable (store : Store) (n : String) : Option Table :=
  store.find? (fun t => t.name == n)

/-- Source: `` `%${normalizedDrug}%` ``. -/
def mkLike (s : String) : String :=
  "%" ++ s ++ "%"

def rowFilterA (p1 p2 : String) (r : LegacyRow) : Bool :=
  ilikeMatch r.drug1 p1 && ilikeMatch r.drug2 p2

def rowFilterB (p1 p2 : String) (r : DDInterRow) : Bool :=
  ilikeMatch r.primary_drug_name p1 && ilikeMatch r.secondary_drug_name p2

/-- `.from(n).select("drug1,drug2,severity,description,interaction")
.ilike("drug1", p1).ilike("drug2", p2).limit(1)`. -/
def queryA (store : Store) (n p1 p2 : String) : QRes LegacyRow :=
  match lookupTable store n with
  | none => .err
  | some t =>
    match t.colsA with
    | .thrown => .thrown
    | .err => .err
    | .rows l => .rows ((l.filter (rowFilterA p1 p2)).take 1)

/-- `.from(n).select("primary_drug_name,secondary_drug_name,interaction_severity")
.ilike("primary_drug_name", p1).ilike("secondary_drug_name", p2).limit(1)`. -/
def queryB (store : Store) (n p1 p2 : String) : QRes DDInterRow :=
  match lookupTable store n with
  | none => .err
  | some t =>
    match t.colsB with
    | .thrown => .thrown
    | .err => .err
    | .rows l => .rows ((l.filter (rowFilterB p1 p2)).take 1)

/-- `firstA.data[0] as DrugInteraction`: the raw cast of a legacy row. -/
def rowAToResult (r : LegacyRow) : DrugInteraction :=
  ⟨r.drug1, r.drug2, r.severity, r.description, r.interaction⟩

/-- The Shape B construction: names from the paired-name columns, severity
through `normalizeSeverity`, no description / interaction fields. -/
def rowBToResult (r : DDInterRow) : DrugInteraction :=
  ⟨r.primary_drug_name, r.secondary_drug_name,
    normalizeSeverity (some r.interaction_severity), none, none⟩

/-- Source `findInteractionInTable`: four sequential sub-queries with an
early return on the first one that has data; a thrown select propagates
as an exception (`.error ()`); error results fall through (the source
logs them and returns null either way). -/
def findInteractionInTable (store : Store) (nd1 nd2 tableName : String) :
    Except Unit (Option DrugInteraction) :=
  match queryA store tableName (mkLike nd1) (mkLike nd2) with
  | .thrown => .error ()
  | .rows (r :: _) => .ok (some (rowAToResult r))
  | _ =>
    match queryB store tableName (mkLike nd1) (mkLike nd2) with
    | .thrown => .error ()
    | .rows (r :: _) => .ok (some (rowBToResult r))
    | _ =>
      match queryA store tableName (mkLike nd2) (mkLike nd1) with
      | .thrown => .error ()
      | .rows (r :: _) => .ok (some (rowAToResult r))
      | _ =>
        match queryB store tableName (mkLike nd2) (mkLike nd1) with
        | .thrown => .error ()
        | .rows (r :: _) => .ok (some (rowBToResult r))
        | _ => .ok none

/-- `process.env.NEXT_PUBLIC_DRUG_INTERACTIONS_TABLE || "drug_interactions"`:
an empty environment value is falsy and falls back to the default. -/
def envTableName (env : Option String) : String :=
  match env with
  | some s => if s = "" then "drug_interactions" else s
  | none => "drug_interactions"

/-- Source `tableCandidates`. -/
def tableCandidates (env : Option String) : List String :=
  [envTableName env, "DrugInteraction", "druginteraction"]

/-- The `for (const tableName of tableCandidates)` loop: break on a found
interaction, `continue` both on a caught exception and on null. -/
def tryTables (store : Store) (nd1 nd2 : String) :
    List String → Option DrugInteraction
  | [] => none
  | n :: rest =>
    match findInteractionInTable store nd1 nd2 n with
    | .error _ => tryTables store nd1 nd2 rest
    | .ok (some i) => some i
    | .ok none => tryTables store nd1 nd2 rest

/-- An HTTP response of the handler: 200 with a DrugInteraction body, or
400 with an error message. -/
inductive HandlerResult where
  | ok : DrugInteraction → HandlerResult
  | clientError : String → HandlerResult
  deriving DecidableEq, Repr

def fallbackDescription : String :=
  "No known significant interactions found between these medications in our database."

def fallbackAdvice : String :=
  "Based on current medical data, these medications do not have significant documented interactions. However, always consult with your healthcare provider as individual factors may affect medication interactions."

/-- The POST handler body (after JSON parsing): the falsy check on the two
names, normalization, the table loop, and the matched / fallback response.
`env` models `process.env.NEXT_PUBLIC_DRUG_INTERACTIONS_TABLE`. -/
def POST (env : Option String) (store : Store) (drug1 drug2 : String) :
    HandlerResult :=
  if drug1 = "" ∨ drug2 = "" then
    .clientError "Both drug names are required"
  else
    match tryTables store (normalizeDrugName drug1) (normalizeDrugName drug2)
        (tableCandidates env) with
    | some i => .ok ⟨jsTrim drug1, jsTrim drug2, i.severity, i.description,
        i.interaction⟩
    | none => .ok ⟨jsTrim drug1, jsTrim drug2, "None",
        some fallbackDescription, some fallbackAdvice⟩

/-! Spec-side description of the resolution schedule (§4.2 of the spec),
used to state the refinement claim about sub-query order. -/

/-- One sub-query: a schema shape together with the two ilike patterns. -/
inductive SubQuery where
  | shapeA : String → String → SubQuery
  | shapeB : String → String → SubQuery
  deriving DecidableEq, Repr

/-- Modelled from the spec: the four sub-queries, in order — Shape A in
order (A, B), Shape B in order (A, B), Shape A swapped, Shape B swapped. -/
def subQuerySchedule (nd1 nd2 : String) : List SubQuery :=
  [.shapeA (mkLike nd1) (mkLike nd2), .shapeB (mkLike nd1) (mkLike nd2),
   .shapeA (mkLike nd2) (mkLike nd1), .shapeB (mkLike nd2) (mkLike nd1)]

/-- Run one scheduled sub-query against one table. -/
def runSubQuery (store : Store) (n : String) :
    SubQuery → Except Unit (Option DrugInteraction)
  | .shapeA p1 p2 =>
    match queryA store n p1 p2 with
    | .thrown => .error ()
    | .rows (r :: _) => .ok (some (rowAToResult r))
    | _ => .ok none
  | .shapeB p1 p2 =>
    match queryB store n p1 p2 with
    | .thrown => .error ()
    | .rows (r :: _) => .ok (some (rowBToResult r))
    | _ => .ok none

/-- Modelled from the spec: attempt the scheduled sub-queries in order,
short-circuiting on the first one that returns a record. -/
def firstHit (store : Store) (n : String) :
    List SubQuery → Except Unit (Option DrugInteraction)
  | [] => .ok none
  | q :: qs =>
    match runSubQuery store n q with
    | .error e => .error e
    | .ok (some i) => .ok (some i)
    | .ok none => firstHit store n qs

/-- Number of rows a select outcome carries. -/
def numRows {α : Type} : QRes α → Nat
  | .rows l => l.length
  | _ => 0

/-- The closed severity set, as strings. -/
def severityStrings : List String :=
  ["Major", "Moderate", "Minor", "None"]

/-- The legacy-shape rows a select outcome exposes. -/
def rowsOfA : QRes LegacyRow → List LegacyRow
  | .rows l => l
  | _ => []

/-- Every legacy-shape row in the store already carries a closed-set
severity string. -/
def storeShapeAClosed (store : Store) : Prop :=
  ∀ t ∈ store, ∀ r ∈ rowsOfA t.colsA, r.severity ∈ severityStrings

instance (store : Store) : Decidable (storeShapeAClosed store) := by
  unfold storeShapeAClosed; infer_instance

/-! Helper lemmas. -/

theorem normalizeSeverity_mem (sev : Option String) :
    normalizeSeverity sev ∈ severityStrings := by
  simp only [normalizeSeverity, severityStrings]
  split <;> [simp; split <;> [simp; split <;> simp]]

theorem rowBToResult_severity_mem (r : DDInterRow) :
    (rowBToResult r).severity ∈ severityStrings :=
  normalizeSeverity_mem (some r.interaction_severity)

theorem lookupTable_mem {store : Store} {n : String} {t : Table}
    (h : lookupTable store n = some t) : t ∈ store :=
  List.mem_of_find?_eq_some h

theorem queryA_rows_inv {store : Store} {n p1 p2 : String} {r : LegacyRow}
    {rest : List LegacyRow}
    (h : queryA store n p1 p2 = .rows (r :: rest)) :
    ∃ t, lookupTable store n = some t ∧ t ∈ store ∧ r ∈ rowsOfA t.colsA ∧
      rowFilterA p1 p2 r = true := by
  unfold queryA at h
  rcases hl : lookupTable store n with _ | t
  · simp [hl] at h
  · simp only [hl] at h
    rcases hc : t.colsA with _ | _ | l
    · simp [hc] at h
    · simp [hc] at h
    · simp only [hc, QRes.rows.injEq] at h
      have hmem : r ∈ (l.filter (rowFilterA p1 p2)).take 1 := by
        rw [h]; exact List.mem_cons_self r rest
      have hfil := List.take_subset 1 _ hmem
      refine ⟨t, rfl, lookupTable_mem hl, ?_, (List.mem_filter.mp hfil).2⟩
      simpa [rowsOfA, hc] using List.mem_of_mem_filter hfil

theorem queryB_rows_inv {store : Store} {n p1 p2 : String} {r : DDInterRow}
    {rest : List DDInterRow}
    (h : queryB store n p1 p2 = .rows (r :: rest)) :
    ∃ t, lookupTable store n = some t ∧ t ∈ store ∧
      rowFilterB p1 p2 r = true := by
  unfold queryB at h
  rcases hl : lookupTable store n with _ | t
  · simp [hl] at h
  · simp only [hl] at h
    rcases hc : t.colsB with _ | _ | l
    · simp [hc] at h
    · simp [hc] at h
    · simp only [hc, QRes.rows.injEq] at h
      have hmem : r ∈ (l.filter (rowFilterB p1 p2)).take 1 := by
        rw [h]; exact List.mem_cons_self r rest
      exact ⟨t, rfl, lookupTable_mem hl,
        (List.mem_filter.mp (List.take_subset 1 _ hmem)).2⟩

/-- The lookup in one table is exactly the short-circuiting run of the
four scheduled sub-queries. -/
theorem find_eq_firstHit (store : Store) (nd1 nd2 n : String) :
    findInteractionInTable store nd1 nd2 n =
      firstHit store n (subQuerySchedule nd1 nd2) := by
  rcases h1 : queryA store n (mkLike nd1) (mkLike nd2) with _ | _ | (_ | ⟨r1, t1⟩) <;>
  rcases h2 : queryB store n (mkLike nd1) (mkLike nd2) with _ | _ | (_ | ⟨r2, t2⟩) <;>
  rcases h3 : queryA store n (mkLike nd2) (mkLike nd1) with _ | _ | (_ | ⟨r3, t3⟩) <;>
  rcases h4 : queryB store n (mkLike nd2) (mkLike nd1) with _ | _ | (_ | ⟨r4, t4⟩) <;>
  simp [findInteractionInTable, firstHit, subQuerySchedule, runSubQuery,
    h1, h2, h3, h4]

/-- If one table's lookup found a record, the record came from one of the
four sub-queries, converted by the matching shape's constructor. -/
theorem find_ok_some_inv {store : Store} {nd1 nd2 n : String}
    {i : DrugInteraction}
    (h : findInteractionInTable store nd1 nd2 n = .ok (some i)) :
    (∃ r rest, queryA store n (mkLike nd1) (mkLike nd2) = .rows (r :: rest) ∧
      i = rowAToResult r) ∨
    (∃ r rest, queryB store n (mkLike nd1) (mkLike nd2) = .rows (r :: rest) ∧
      i = rowBToResult r) ∨
    (∃ r rest, queryA store n (mkLike nd2) (mkLike nd1) = .rows (r :: rest) ∧
      i = rowAToResult r) ∨
    (∃ r rest, queryB store n (mkLike nd2) (mkLike nd1) = .rows (r :: rest) ∧
      i = rowBToResult r) := by
  unfold findInteractionInTable at h
  rcases h1 : queryA store n (mkLike nd1) (mkLike nd2) with _ | _ | (_ | ⟨r1, t1⟩) <;>
  rcases h2 : queryB store n (mkLike nd1) (mkLike nd2) with _ | _ | (_ | ⟨r2, t2⟩) <;>
  rcases h3 : queryA store n (mkLike nd2) (mkLike nd1) with _ | _ | (_ | ⟨r3, t3⟩) <;>
  rcases h4 : queryB store n (mkLike nd2) (mkLike nd1) with _ | _ | (_ | ⟨r4, t4⟩) <;>
  simp only [h1, h2, h3, h4, Except.ok.injEq, Option.some.injEq,
    reduceCtorEq] at h <;>
  first
    | (exact Or.inl ⟨r1, t1, rfl, h.symm⟩)
    | (exact Or.inr (Or.inl ⟨r2, t2, rfl, h.symm⟩))
    | (exact Or.inr (Or.inr (Or.inl ⟨r3, t3, rfl, h.symm⟩)))
    | (exact Or.inr (Or.inr (Or.inr ⟨r4, t4, rfl, h.symm⟩)))

/-- Any record found in a table of a shape-A-closed store has a closed-set
severity. -/
theorem find_some_severity {store : Store} {nd1 nd2 n : String}
    {i : DrugInteraction} (hclosed : storeShapeAClosed store)
    (h : findInteractionInTable store nd1 nd2 n = .ok (some i)) :
    i.severity ∈ severityStrings := by
  have hA : ∀ p1 p2 (r : LegacyRow) rest,
      queryA store n p1 p2 = .rows (r :: rest) →
      (rowAToResult r).severity ∈ severityStrings := by
    intro p1 p2 r rest hq
    obtain ⟨t, _, htmem, hrmem, _⟩ := queryA_rows_inv hq
    simpa [rowAToResult] using hclosed t htmem r hrmem
  rcases find_ok_some_inv h with ⟨r, rest, hq, hi⟩ | ⟨r, rest, hq, hi⟩ |
    ⟨r, rest, hq, hi⟩ | ⟨r, rest, hq, hi⟩
  · exact hi ▸ hA _ _ r rest hq
  · exact hi ▸ rowBToResult_severity_mem r
  · exact hi ▸ hA _ _ r rest hq
  · exact hi ▸ rowBToResult_severity_mem r

/-- If the table loop produced a record, some candidate table's lookup
returned it. -/
theorem tryTables_some_inv {store : Store} {nd1 nd2 : String}
    {ts : List String} {i : DrugInteraction}
    (h : tryTables store nd1 nd2 ts = some i) :
    ∃ n ∈ ts, findInteractionInTable store nd1 nd2 n = .ok (some i) := by
  induction ts with
  | nil => simp [tryTables] at h
  | cons n rest ih =>
    unfold tryTables at h
    rcases hf : findInteractionInTable store nd1 nd2 n with e | oi
    · simp only [hf] at h
      obtain ⟨m, hm, hfm⟩ := ih h
      exact ⟨m, List.mem_cons_of_mem _ hm, hfm⟩
    · rcases oi with _ | i2
      · simp only [hf] at h
        obtain ⟨m, hm, hfm⟩ := ih h
        exact ⟨m, List.mem_cons_of_mem _ hm, hfm⟩
      · simp only [hf, Option.some.injEq] at h
        exact ⟨n, List.mem_cons_self n rest, h ▸ hf⟩

/-- If some candidate table's lookup returns a record, the table loop
returns a record. -/
theorem tryTables_isSome_of_mem {store : Store} {nd1 nd2 n : String}
    {ts : List String} {j : DrugInteraction} (hmem : n ∈ ts)
    (hf : findInteractionInTable store nd1 nd2 n = .ok (some j)) :
    (tryTables store nd1 nd2 ts).isSome := by
  induction ts with
  | nil => simp at hmem
  | cons m rest ih =>
    unfold tryTables
    rcases List.mem_cons.mp hmem with rfl | hmem2
    · rw [hf]; rfl
    · rcases hg : findInteractionInTable store nd1 nd2 m with e | oi
      · exact ih hmem2
      · rcases oi with _ | i2
        · exact ih hmem2
        · rfl

/-- A validated request always produces a 200 response. -/
theorem POST_valid_ok (env : Option String) (store : Store) {d1 d2 : String}
    (h1 : d1 ≠ "") (h2 : d2 ≠ "") :
    ∃ r, POST env store d1 d2 = .ok r := by
  unfold POST
  rw [if_neg (by tauto)]
  rcases tryTables store (normalizeDrugName d1) (normalizeDrugName d2)
      (tableCandidates env) with _ | i
  · exact ⟨_, rfl⟩
  · exact ⟨_, rfl⟩

/-! Claim theorems. -/

/-- Claim C3: normalizeSeverity is total on string-or-absent input; after
lower-casing it returns Major on a "major" substring, else Moderate on
"moderate", else Minor on "minor", else None; absence or unrecognized
text yields None; the Major > Moderate > Minor priority governs strings
containing several keywords. -/
theorem C3_normalizeSeverity_total (sev : Option String) :
    (strContains (jsToLower (sev.getD "")) "major" = true →
      normalizeSeverity sev = "Major") ∧
    (strContains (jsToLower (sev.getD "")) "major" = false →
      strContains (jsToLower (sev.getD "")) "moderate" = true →
      normalizeSeverity sev = "Moderate") ∧
    (strContains (jsToLower (sev.getD "")) "major" = false →
      strContains (jsToLower (sev.getD "")) "moderate" = false →
      strContains (jsToLower (sev.getD "")) "minor" = true →
      normalizeSeverity sev = "Minor") ∧
    (strContains (jsToLower (sev.getD "")) "major" = false →
      strContains (jsToLower (sev.getD "")) "moderate" = false →
      strContains (jsToLower (sev.getD "")) "minor" = false →
      normalizeSeverity sev = "None") ∧
    normalizeSeverity none = "None" ∧
    normalizeSeverity sev ∈ severityStrings ∧
    normalizeSeverity (some "this is a major but also minor note") = "Major" := by
  refine ⟨fun h1 => ?_, fun h1 h2 => ?_, fun h1 h2 h3 => ?_, fun h1 h2 h3 => ?_,
    by decide, normalizeSeverity_mem sev, by decide⟩ <;>
  simp [normalizeSeverity, *]

/-- Witness for C3 at a concrete input with a "major" substring. -/
theorem C3_witness :
    strContains (jsToLower ((some "MAJOR - use caution" : Option String).getD ""))
      "major" = true ∧
    normalizeSeverity (some "MAJOR - use caution") = "Major" :=
  ⟨by decide, (C3_normalizeSeverity_total (some "MAJOR - use caution")).1 (by decide)⟩

/-- Claim C2 fails as stated: a whitespace-only name is truthy in the
source's falsy check, so the handler does not return 400 but proceeds to
the lookup and returns the fallback. -/
theorem C2_counterexample :
    POST none [] " " "aspirin" =
      .ok ⟨"", "aspirin", "None", some fallbackDescription, some fallbackAdvice⟩ ∧
    POST none [] " " "aspirin" ≠
      .clientError "Both drug names are required" :=
  ⟨by decide, by decide⟩

/-- Claim C2 (amended): the handler returns 400 with message "Both drug
names are required" exactly when drug1 or drug2 is the empty string; in
that case the response is independent of the store (no lookup can be
observed); whitespace-only names do not trigger the error. -/
theorem C2_amended_validation (env : Option String) (store : Store)
    (d1 d2 : String) :
    ((d1 = "" ∨ d2 = "") ↔
      POST env store d1 d2 = .clientError "Both drug names are required") ∧
    ((d1 = "" ∨ d2 = "") → ∀ store2 : Store,
      POST env store d1 d2 = POST env store2 d1 d2) := by
  constructor
  · constructor
    · intro h; unfold POST; rw [if_pos h]
    · intro h; by_contra hne
      push_neg at hne
      obtain ⟨r, hr⟩ := POST_valid_ok env store hne.1 hne.2
      rw [h] at hr
      exact absurd hr (by simp)
  · intro h store2
    unfold POST
    rw [if_pos h, if_pos h]

/-- Witness for C2 (amended) at the empty first name. -/
theorem C2_witness :
    POST none [] "" "aspirin" = .clientError "Both drug names are required" :=
  ((C2_amended_validation none [] "" "aspirin").1).mp (Or.inl rfl)

/-- Claim C4: a valid request for which no source and no sub-query found a
record gets the fallback DrugInteraction — severity None with the fixed,
non-empty advisory texts — never an error. -/
theorem C4_fallback (env : Option String) (store : Store) (d1 d2 : String)
    (h1 : d1 ≠ "") (h2 : d2 ≠ "")
    (hnone : tryTables store (normalizeDrugName d1) (normalizeDrugName d2)
      (tableCandidates env) = none) :
    POST env store d1 d2 =
      .ok ⟨jsTrim d1, jsTrim d2, "None",
        some fallbackDescription, some fallbackAdvice⟩ ∧
    fallbackDescription ≠ "" ∧ fallbackAdvice ≠ "" ∧
    "None" ∈ severityStrings := by
  refine ⟨?_, by decide, by decide, by decide⟩
  unfold POST
  rw [if_neg (by tauto), hnone]

/-- Witness for C4 on the empty store. -/
theorem C4_witness :
    tryTables [] (normalizeDrugName "aspirin") (normalizeDrugName "ibuprofen")
      (tableCandidates none) = none ∧
    POST none [] "aspirin" "ibuprofen" =
      .ok ⟨"aspirin", "ibuprofen", "None",
        some fallbackDescription, some fallbackAdvice⟩ :=
  ⟨by decide, by
    have h := (C4_fallback none [] "aspirin" "ibuprofen" (by decide) (by decide)
      (by decide)).1
    simpa using h⟩

/-- Claim C7: every 200 response echoes the caller-supplied names trimmed
of surrounding whitespace, in their original case — for matched results
and for the fallback alike. -/
theorem C7_echo (env : Option String) (store : Store) (d1 d2 : String)
    (r : DrugInteraction) (h : POST env store d1 d2 = .ok r) :
    r.drug1 = jsTrim d1 ∧ r.drug2 = jsTrim d2 := by
  unfold POST at h
  by_cases hv : d1 = "" ∨ d2 = ""
  · rw [if_pos hv] at h
    exact absurd h (by simp)
  · rw [if_neg hv] at h
    rcases htt : tryTables store (normalizeDrugName d1) (normalizeDrugName d2)
        (tableCandidates env) with _ | i <;>
    · rw [htt] at h
      simp only [HandlerResult.ok.injEq] at h
      rw [← h]
      exact ⟨rfl, rfl⟩

/-- Witness for C7: a matched result echoes the trimmed original-case
names, not the record's spelling and not the normalized forms. -/
theorem C7_witness :
    POST none [⟨"drug_interactions",
        .rows [⟨"aspirin", "warfarin", "Minor", none, none⟩], .err⟩]
        " Aspirin " "WARFARIN" =
      .ok ⟨"Aspirin", "WARFARIN", "Minor", none, none⟩ ∧
    (⟨"Aspirin", "WARFARIN", "Minor", none, none⟩ :
        DrugInteraction).drug1 = jsTrim " Aspirin " ∧
    (⟨"Aspirin", "WARFARIN", "Minor", none, none⟩ :
        DrugInteraction).drug2 = jsTrim "WARFARIN" :=
  ⟨by decide,
    (C7_echo none [⟨"drug_interactions",
      .rows [⟨"aspirin", "warfarin", "Minor", none, none⟩], .err⟩]
      " Aspirin " "WARFARIN" ⟨"Aspirin", "WARFARIN", "Minor", none, none⟩
      (by decide)).1,
    (C7_echo none [⟨"drug_interactions",
      .rows [⟨"aspirin", "warfarin", "Minor", none, none⟩], .err⟩]
      " Aspirin " "WARFARIN" ⟨"Aspirin", "WARFARIN", "Minor", none, none⟩
      (by decide)).2⟩

/-! Lemmas for the whitespace-only input claim. -/

theorem toLower_of_whitespace {c : Char} (h : c.isWhitespace = true) :
    c.toLower = c := by
  simp only [Char.isWhitespace, Bool.or_eq_true, decide_eq_true_eq] at h
  rcases h with ((h | h) | h) | h <;> rw [h] <;> decide

theorem normalizeDrugName_of_whitespace {d : String}
    (hw : ∀ c ∈ d.data, c.isWhitespace = true) :
    normalizeDrugName d = "" := by
  unfold normalizeDrugName jsTrim jsToLower
  have hall : ∀ c ∈ d.data.map Char.toLower, c.isWhitespace = true := by
    intro c hc
    obtain ⟨c0, hc0, rfl⟩ := List.mem_map.mp hc
    rw [toLower_of_whitespace (hw c0 hc0)]
    exact hw c0 hc0
  rw [show (String.mk (d.data.map Char.toLower)).data
        = d.data.map Char.toLower from rfl,
    List.dropWhile_eq_nil_iff.mpr hall]
  rfl

theorem likeMatch_percent_cons (ps cs : List Char) :
    likeMatch ('%' :: ps) cs = cs.tails.any (fun s => likeMatch ps s) := by
  simp [likeMatch]

theorem likeMatch_single_percent (cs : List Char) :
    likeMatch ['%'] cs = true := by
  rw [likeMatch_percent_cons]
  refine List.any_eq_true.mpr ⟨[], ?_, by decide⟩
  exact (List.mem_tails [] cs).mpr List.nil_suffix

theorem likeMatch_double_percent (cs : List Char) :
    likeMatch ['%', '%'] cs = true := by
  rw [likeMatch_percent_cons]
  refine List.any_eq_true.mpr ⟨cs, ?_, likeMatch_single_percent cs⟩
  exact (List.mem_tails cs cs).mpr (List.suffix_refl cs)

theorem ilikeMatch_allpercent (s : String) : ilikeMatch s "%%" = true := by
  unfold ilikeMatch
  exact likeMatch_double_percent (jsToLower s).data

/-- Claim C10: a request whose names are non-empty but all-whitespace
passes the falsy validation; the handler proceeds (never a 400), the
normalized names are empty, the resulting ilike pattern is literally
"%%", and that pattern matches every field value. -/
theorem C10_whitespace_passes (env : Option String) (store : Store)
    (d1 d2 : String) (h1 : d1 ≠ "") (h2 : d2 ≠ "")
    (hw1 : ∀ c ∈ d1.data, c.isWhitespace = true)
    (hw2 : ∀ c ∈ d2.data, c.isWhitespace = true) :
    (∃ r, POST env store d1 d2 = .ok r) ∧
    normalizeDrugName d1 = "" ∧ normalizeDrugName d2 = "" ∧
    mkLike (normalizeDrugName d1) = "%%" ∧
    (∀ s : String, ilikeMatch s "%%" = true) := by
  refine ⟨POST_valid_ok env store h1 h2,
    normalizeDrugName_of_whitespace hw1,
    normalizeDrugName_of_whitespace hw2, ?_, ilikeMatch_allpercent⟩
  rw [normalizeDrugName_of_whitespace hw1]
  rfl

/-- Witness for C10 at the one-space names. -/
theorem C10_witness :
    (" " : String) ≠ "" ∧ (∀ c ∈ (" " : String).data, c.isWhitespace = true) ∧
    (∃ r, POST none [] " " " " = .ok r) ∧
    normalizeDrugName " " = "" ∧
    mkLike (normalizeDrugName " ") = "%%" :=
  ⟨by decide, by decide,
    (C10_whitespace_passes none [] " " " " (by decide) (by decide)
      (by decide) (by decide)).1,
    (C10_whitespace_passes none [] " " " " (by decide) (by decide)
      (by decide) (by decide)).2.1,
    (C10_whitespace_passes none [] " " " " (by decide) (by decide)
      (by decide) (by decide)).2.2.2.1⟩

/-! Claim C1. -/

/-- A store whose single legacy-shape record carries free severity text. -/
def storeC1 : Store :=
  [⟨"drug_interactions",
    .rows [⟨"aspirin", "warfarin", "definitely hazardous", none, none⟩],
    .err⟩]

/-- Claim C1 fails as stated: a Shape A match's raw severity text is
returned by the handler unchanged (the cast is unchecked), so the
response severity can fall outside the closed set. -/
theorem C1_counterexample :
    POST none storeC1 "Aspirin" "Warfarin" =
      .ok ⟨"Aspirin", "Warfarin", "definitely hazardous", none, none⟩ ∧
    "definitely hazardous" ∉ severityStrings :=
  ⟨by decide, by decide⟩

/-- Claim C1 (amended): results built from Shape B matches or from the
fallback always carry a closed-set severity; a Shape A match returns the
stored severity text as-is, so the closed-set invariant holds exactly
when every legacy-shape row in the store already carries a closed-set
severity string. -/
theorem C1_amended_closed_severity (env : Option String) (store : Store)
    (hclosed : storeShapeAClosed store) (d1 d2 : String)
    (r : DrugInteraction) (h : POST env store d1 d2 = .ok r) :
    r.severity ∈ severityStrings := by
  unfold POST at h
  by_cases hv : d1 = "" ∨ d2 = ""
  · rw [if_pos hv] at h
    exact absurd h (by simp)
  · rw [if_neg hv] at h
    rcases htt : tryTables store (normalizeDrugName d1) (normalizeDrugName d2)
        (tableCandidates env) with _ | i
    · rw [htt] at h
      simp only [HandlerResult.ok.injEq] at h
      rw [← h]
      simp [severityStrings]
    · rw [htt] at h
      simp only [HandlerResult.ok.injEq] at h
      obtain ⟨n, hn, hfind⟩ := tryTables_some_inv htt
      have hsev := find_some_severity hclosed hfind
      rw [← h]
      simpa using hsev

/-- A store whose legacy rows all carry closed-set severities. -/
def storeW1 : Store :=
  [⟨"drug_interactions", .rows [⟨"abc", "xyz", "Minor", none, none⟩], .err⟩]

/-- Witness for C1 (amended) on a store whose legacy rows are closed. -/
theorem C1_amended_witness :
    storeShapeAClosed storeW1 ∧
    POST none storeW1 "abc" "xyz" = .ok ⟨"abc", "xyz", "Minor", none, none⟩ ∧
    (⟨"abc", "xyz", "Minor", none, none⟩ :
      DrugInteraction).severity ∈ severityStrings :=
  ⟨by decide, by decide,
    C1_amended_closed_severity none storeW1 (by decide) "abc" "xyz" _ (by decide)⟩

/-! Claim C9. -/

/-- A select outcome that carries no record: an error result or an empty
row set (the source treats both as "no data" and falls through). -/
def QRes.noData {α : Type} (q : QRes α) : Prop :=
  q = .err ∨ q = .rows []

instance {α : Type} [DecidableEq α] (q : QRes α) : Decidable q.noData := by
  unfold QRes.noData
  infer_instance

/-- Claim C9: when the first sub-query with data is a Shape B one (in
either name order), the found record is converted with drug1/drug2 taken
from primary_drug_name/secondary_drug_name, severity through
normalizeSeverity of interaction_severity, and absent
description/interaction. -/
theorem C9_shapeB_construction (store : Store) (nd1 nd2 n : String) :
    (∀ (r : DDInterRow) (rest : List DDInterRow),
      (queryA store n (mkLike nd1) (mkLike nd2)).noData →
      queryB store n (mkLike nd1) (mkLike nd2) = .rows (r :: rest) →
      findInteractionInTable store nd1 nd2 n =
        .ok (some ⟨r.primary_drug_name, r.secondary_drug_name,
          normalizeSeverity (some r.interaction_severity), none, none⟩)) ∧
    (∀ (r : DDInterRow) (rest : List DDInterRow),
      (queryA store n (mkLike nd1) (mkLike nd2)).noData →
      (queryB store n (mkLike nd1) (mkLike nd2)).noData →
      (queryA store n (mkLike nd2) (mkLike nd1)).noData →
      queryB store n (mkLike nd2) (mkLike nd1) = .rows (r :: rest) →
      findInteractionInTable store nd1 nd2 n =
        .ok (some ⟨r.primary_drug_name, r.secondary_drug_name,
          normalizeSeverity (some r.interaction_severity), none, none⟩)) := by
  constructor
  · intro r rest h1 h2
    rcases h1 with h1 | h1 <;>
      simp [findInteractionInTable, h1, h2, rowBToResult]
  · intro r rest h1 h2 h3 h4
    rcases h1 with h1 | h1 <;> rcases h2 with h2 | h2 <;>
      rcases h3 with h3 | h3 <;>
      simp [findInteractionInTable, h1, h2, h3, h4, rowBToResult]

/-- A store whose table answers legacy selects with an error and DDInter
selects with one row (mirrors the spec's Shape B scenario). -/
def storeW9 : Store :=
  [⟨"drug_interactions", .err,
    .rows [⟨"metformin", "lisinopril",
      "no significant interaction - minor monitoring advised"⟩]⟩]

/-- Witness for C9 on the Shape B scenario store. -/
theorem C9_witness :
    (queryA storeW9 "drug_interactions"
      (mkLike "metformin") (mkLike "lisinopril")).noData ∧
    queryB storeW9 "drug_interactions"
        (mkLike "metformin") (mkLike "lisinopril") =
      .rows [⟨"metformin", "lisinopril",
        "no significant interaction - minor monitoring advised"⟩] ∧
    findInteractionInTable storeW9 "metformin" "lisinopril"
        "drug_interactions" =
      .ok (some ⟨"metformin", "lisinopril", "Minor", none, none⟩) :=
  ⟨by decide, by decide,
    (C9_shapeB_construction storeW9 "metformin" "lisinopril"
      "drug_interactions").1
      ⟨"metformin", "lisinopril",
        "no significant interaction - minor monitoring advised"⟩ []
      (by decide) (by decide)⟩

/-! Claim C5. -/

theorem numRows_queryA (store : Store) (n p1 p2 : String) :
    numRows (queryA store n p1 p2) ≤ 1 := by
  unfold queryA numRows
  rcases lookupTable store n with _ | t
  · simp
  · rcases hc : t.colsA with _ | _ | l <;>
      simp [hc, List.length_take]

theorem numRows_queryB (store : Store) (n p1 p2 : String) :
    numRows (queryB store n p1 p2) ≤ 1 := by
  unfold queryB numRows
  rcases lookupTable store n with _ | t
  · simp
  · rcases hc : t.colsB with _ | _ | l <;>
      simp [hc, List.length_take]

/-- Claim C5: one table's lookup is exactly the in-order, short-circuiting
run of the four scheduled sub-queries (Shape A then Shape B in caller
order, then the same pair swapped), each sub-query carrying at most one
row; the candidate sources are, in order, the environment override (with
default "drug_interactions"), then "DrugInteraction", then
"druginteraction". -/
theorem C5_schedule (env : Option String) (store : Store)
    (nd1 nd2 n : String) :
    findInteractionInTable store nd1 nd2 n =
      firstHit store n (subQuerySchedule nd1 nd2) ∧
    subQuerySchedule nd1 nd2 =
      [.shapeA (mkLike nd1) (mkLike nd2), .shapeB (mkLike nd1) (mkLike nd2),
       .shapeA (mkLike nd2) (mkLike nd1), .shapeB (mkLike nd2) (mkLike nd1)] ∧
    tableCandidates env =
      [envTableName env, "DrugInteraction", "druginteraction"] ∧
    envTableName none = "drug_interactions" ∧
    envTableName (some "") = "drug_interactions" ∧
    (∀ s : String, s ≠ "" → envTableName (some s) = s) ∧
    numRows (queryA store n (mkLike nd1) (mkLike nd2)) ≤ 1 ∧
    numRows (queryB store n (mkLike nd1) (mkLike nd2)) ≤ 1 ∧
    numRows (queryA store n (mkLike nd2) (mkLike nd1)) ≤ 1 ∧
    numRows (queryB store n (mkLike nd2) (mkLike nd1)) ≤ 1 := by
  refine ⟨find_eq_firstHit store nd1 nd2 n, rfl, rfl, rfl, rfl, ?_,
    numRows_queryA store n _ _, numRows_queryB store n _ _,
    numRows_queryA store n _ _, numRows_queryB store n _ _⟩
  intro s hs
  simp [envTableName, hs]

/-- Witness for C5, picking a non-empty environment override. -/
theorem C5_witness :
    ("customTable" : String) ≠ "" ∧
    envTableName (some "customTable") = "customTable" ∧
    findInteractionInTable [] "a" "b" "drug_interactions" =
      firstHit [] "drug_interactions" (subQuerySchedule "a" "b") :=
  ⟨by decide,
    (C5_schedule (some "customTable") [] "a" "b"
      "drug_interactions").2.2.2.2.2.1 "customTable" (by decide),
    (C5_schedule none [] "a" "b" "drug_interactions").1⟩

/-! Claim C8. -/

deriving instance DecidableEq for Except

theorem queryA_of_none {store : Store} {n : String}
    (h : lookupTable store n = none) (p1 p2 : String) :
    queryA store n p1 p2 = .err := by
  simp [queryA, h]

theorem queryB_of_none {store : Store} {n : String}
    (h : lookupTable store n = none) (p1 p2 : String) :
    queryB store n p1 p2 = .err := by
  simp [queryB, h]

/-- A table whose legacy select throws while its DDInter select holds a
matching record with "major" severity text. -/
def storeC8 : Store :=
  [⟨"drug_interactions", .thrown,
    .rows [⟨"amiodarone", "warfarin", "major interaction"⟩]⟩]

/-- Claim C8 fails as stated: a thrown first sub-query aborts the whole
table, so the later Shape B sub-query that holds a Major record is never
attempted — resolution moves to the next source and the caller gets the
None fallback instead of the match. -/
theorem C8_counterexample :
    POST none storeC8 "amiodarone" "warfarin" =
      .ok ⟨"amiodarone", "warfarin", "None",
        some fallbackDescription, some fallbackAdvice⟩ ∧
    queryB storeC8 "drug_interactions"
        (mkLike (normalizeDrugName "amiodarone"))
        (mkLike (normalizeDrugName "warfarin")) =
      .rows [⟨"amiodarone", "warfarin", "major interaction"⟩] ∧
    normalizeSeverity (some "major interaction") = "Major" ∧
    findInteractionInTable storeC8 (normalizeDrugName "amiodarone")
      (normalizeDrugName "warfarin") "drug_interactions" = .error () :=
  ⟨by decide, by decide, by decide, by decide⟩

/-- Claim C8 (amended): no store failure reaches the caller — a validated
request always gets a 200 (fallback if nothing matched); a sub-query that
throws aborts only the current source, and the loop continues with the
remaining sources; a missing table yields error results on all four
sub-queries, which are swallowed ("no record" is returned, not an
exception). -/
theorem C8_amended_error_recovery (env : Option String) (store : Store)
    (d1 d2 nd1 nd2 n : String) (rest : List String) :
    (d1 ≠ "" → d2 ≠ "" → ∃ r, POST env store d1 d2 = .ok r) ∧
    (findInteractionInTable store nd1 nd2 n = .error () →
      tryTables store nd1 nd2 (n :: rest) = tryTables store nd1 nd2 rest) ∧
    (lookupTable store n = none →
      findInteractionInTable store nd1 nd2 n = .ok none) := by
  refine ⟨fun h1 h2 => POST_valid_ok env store h1 h2, fun hf => ?_, fun hl => ?_⟩
  · simp only [tryTables, hf]
  · simp [findInteractionInTable, queryA_of_none hl, queryB_of_none hl]

/-- Witness for C8 (amended): a validated request on the empty store gets
a 200; the throwing table of storeC8 is skipped by the loop; a missing
table resolves to "no record". -/
theorem C8_witness :
    (∃ r, POST none [] "aspirin" "warfarin" = .ok r) ∧
    tryTables storeC8 "amiodarone" "warfarin" ["drug_interactions"] =
      tryTables storeC8 "amiodarone" "warfarin" [] ∧
    findInteractionInTable [] "a" "b" "missing" = .ok none :=
  ⟨(C8_amended_error_recovery none [] "aspirin" "warfarin" "a" "b" "n" []).1
      (by decide) (by decide),
   (C8_amended_error_recovery none storeC8 "x" "y" "amiodarone" "warfarin"
      "drug_interactions" []).2.1 (by decide),
   (C8_amended_error_recovery none [] "x" "y" "a" "b" "missing" []).2.2
      (by decide)⟩

/-! Claim C6. -/

/-- The DDInter-shape rows a select outcome exposes. -/
def rowsOfB : QRes DDInterRow → List DDInterRow
  | .rows l => l
  | _ => []

theorem queryA_not_thrown {store : Store} {n : String} {t : Table}
    (hlook : lookupTable store n = some t) (hA : t.colsA ≠ .thrown)
    (p1 p2 : String) : queryA store n p1 p2 ≠ .thrown := by
  simp only [queryA, hlook]
  rcases hc : t.colsA with _ | _ | l
  · exact absurd hc hA
  · simp
  · simp

theorem queryB_not_thrown {store : Store} {n : String} {t : Table}
    (hlook : lookupTable store n = some t) (hB : t.colsB ≠ .thrown)
    (p1 p2 : String) : queryB store n p1 p2 ≠ .thrown := by
  simp only [queryB, hlook]
  rcases hc : t.colsB with _ | _ | l
  · exact absurd hc hB
  · simp
  · simp

theorem queryA_hasRow {store : Store} {n p1 p2 : String} {t : Table}
    {r : LegacyRow} (hlook : lookupTable store n = some t)
    (hr : r ∈ rowsOfA t.colsA) (hf : rowFilterA p1 p2 r = true) :
    ∃ r2 rest, queryA store n p1 p2 = .rows (r2 :: rest) := by
  simp only [queryA, hlook]
  rcases hc : t.colsA with _ | _ | l
  · simp [rowsOfA, hc] at hr
  · simp [rowsOfA, hc] at hr
  · simp only [rowsOfA, hc] at hr
    have hmem : r ∈ l.filter (rowFilterA p1 p2) := List.mem_filter.mpr ⟨hr, hf⟩
    rcases hfil : l.filter (rowFilterA p1 p2) with _ | ⟨a, as⟩
    · rw [hfil] at hmem; simp at hmem
    · exact ⟨a, [], by simp [hfil]⟩

theorem queryB_hasRow {store : Store} {n p1 p2 : String} {t : Table}
    {r : DDInterRow} (hlook : lookupTable store n = some t)
    (hr : r ∈ rowsOfB t.colsB) (hf : rowFilterB p1 p2 r = true) :
    ∃ r2 rest, queryB store n p1 p2 = .rows (r2 :: rest) := by
  simp only [queryB, hlook]
  rcases hc : t.colsB with _ | _ | l
  · simp [rowsOfB, hc] at hr
  · simp [rowsOfB, hc] at hr
  · simp only [rowsOfB, hc] at hr
    have hmem : r ∈ l.filter (rowFilterB p1 p2) := List.mem_filter.mpr ⟨hr, hf⟩
    rcases hfil : l.filter (rowFilterB p1 p2) with _ | ⟨a, as⟩
    · rw [hfil] at hmem; simp at hmem
    · exact ⟨a, [], by simp [hfil]⟩

/-- If neither column set of the resolved table throws and one of the four
sub-queries carries a row, the table's lookup finds a record. -/
theorem find_isSome_of_hasRow {store : Store} {nd1 nd2 n : String}
    {t : Table} (hlook : lookupTable store n = some t)
    (hA : t.colsA ≠ .thrown) (hB : t.colsB ≠ .thrown)
    (h : (∃ r rest, queryA store n (mkLike nd1) (mkLike nd2) = .rows (r :: rest)) ∨
         (∃ r rest, queryB store n (mkLike nd1) (mkLike nd2) = .rows (r :: rest)) ∨
         (∃ r rest, queryA store n (mkLike nd2) (mkLike nd1) = .rows (r :: rest)) ∨
         (∃ r rest, queryB store n (mkLike nd2) (mkLike nd1) = .rows (r :: rest))) :
    ∃ j, findInteractionInTable store nd1 nd2 n = .ok (some j) := by
  rcases h1 : queryA store n (mkLike nd1) (mkLike nd2) with _ | _ | (_ | ⟨r1, t1⟩) <;>
  rcases h2 : queryB store n (mkLike nd1) (mkLike nd2) with _ | _ | (_ | ⟨r2, t2⟩) <;>
  rcases h3 : queryA store n (mkLike nd2) (mkLike nd1) with _ | _ | (_ | ⟨r3, t3⟩) <;>
  rcases h4 : queryB store n (mkLike nd2) (mkLike nd1) with _ | _ | (_ | ⟨r4, t4⟩) <;>
  first
    | exact absurd h1 (queryA_not_thrown hlook hA _ _)
    | exact absurd h2 (queryB_not_thrown hlook hB _ _)
    | exact absurd h3 (queryA_not_thrown hlook hA _ _)
    | exact absurd h4 (queryB_not_thrown hlook hB _ _)
    | exact ⟨rowAToResult r1, by simp [findInteractionInTable, h1]⟩
    | exact ⟨rowBToResult r2, by simp [findInteractionInTable, h1, h2]⟩
    | exact ⟨rowAToResult r3, by simp [findInteractionInTable, h1, h2, h3]⟩
    | exact ⟨rowBToResult r4, by simp [findInteractionInTable, h1, h2, h3, h4]⟩
    | (rcases h with ⟨r, rest, hq⟩ | ⟨r, rest, hq⟩ | ⟨r, rest, hq⟩ | ⟨r, rest, hq⟩ <;>
        simp [h1, h2, h3, h4] at hq)

/-- A store holding two legacy records for the same drug pair in the two
orders, with different severity texts. -/
def storeC6 : Store :=
  [⟨"drug_interactions",
    .rows [⟨"warfarin", "aspirin", "major bleeding risk", none, none⟩,
           ⟨"aspirin", "warfarin", "minor effect", none, none⟩],
    .err⟩]

/-- Claim C6 fails as stated: with several records matching the pair, the
two query directions pick different records, and the two resolutions
return different severities. -/
theorem C6_counterexample :
    POST none storeC6 "warfarin" "aspirin" =
      .ok ⟨"warfarin", "aspirin", "major bleeding risk", none, none⟩ ∧
    POST none storeC6 "aspirin" "warfarin" =
      .ok ⟨"aspirin", "warfarin", "minor effect", none, none⟩ ∧
    ("major bleeding risk" : String) ≠ "minor effect" ∧
    rowFilterA (mkLike (normalizeDrugName "warfarin"))
      (mkLike (normalizeDrugName "aspirin"))
      ⟨"warfarin", "aspirin", "major bleeding risk", none, none⟩ = true :=
  ⟨by decide, by decide, by decide, by decide⟩

/-- Claim C6 (amended): when a reachable candidate table (whose selects do
not throw) holds a record matching the pair in either shape, the
resolutions of both name orders each find a record; the severities of the
two results can differ when several records match (they may come from
different records), as the counterexample shows. -/
theorem C6_amended_symmetry (env : Option String) (store : Store)
    (dX dY n : String) (t : Table)
    (hmem : n ∈ tableCandidates env)
    (hlook : lookupTable store n = some t)
    (hA : t.colsA ≠ .thrown) (hB : t.colsB ≠ .thrown)
    (hrec :
      (∃ r ∈ rowsOfA t.colsA,
        ilikeMatch r.drug1 (mkLike (normalizeDrugName dX)) = true ∧
        ilikeMatch r.drug2 (mkLike (normalizeDrugName dY)) = true) ∨
      (∃ r ∈ rowsOfB t.colsB,
        ilikeMatch r.primary_drug_name (mkLike (normalizeDrugName dX)) = true ∧
        ilikeMatch r.secondary_drug_name
          (mkLike (normalizeDrugName dY)) = true)) :
    (tryTables store (normalizeDrugName dX) (normalizeDrugName dY)
      (tableCandidates env)).isSome = true ∧
    (tryTables store (normalizeDrugName dY) (normalizeDrugName dX)
      (tableCandidates env)).isSome = true := by
  rcases hrec with ⟨r, hr, hf1, hf2⟩ | ⟨r, hr, hf1, hf2⟩
  · have hq : ∃ r2 rest, queryA store n (mkLike (normalizeDrugName dX))
        (mkLike (normalizeDrugName dY)) = .rows (r2 :: rest) :=
      queryA_hasRow hlook hr (by simp [rowFilterA, hf1, hf2])
    obtain ⟨j1, hj1⟩ := find_isSome_of_hasRow hlook hA hB (Or.inl hq)
    obtain ⟨j2, hj2⟩ :=
      find_isSome_of_hasRow hlook hA hB (Or.inr (Or.inr (Or.inl hq)))
    exact ⟨tryTables_isSome_of_mem hmem hj1, tryTables_isSome_of_mem hmem hj2⟩
  · have hq : ∃ r2 rest, queryB store n (mkLike (normalizeDrugName dX))
        (mkLike (normalizeDrugName dY)) = .rows (r2 :: rest) :=
      queryB_hasRow hlook hr (by simp [rowFilterB, hf1, hf2])
    obtain ⟨j1, hj1⟩ := find_isSome_of_hasRow hlook hA hB (Or.inr (Or.inl hq))
    obtain ⟨j2, hj2⟩ :=
      find_isSome_of_hasRow hlook hA hB (Or.inr (Or.inr (Or.inr hq)))
    exact ⟨tryTables_isSome_of_mem hmem hj1, tryTables_isSome_of_mem hmem hj2⟩

/-- Witness for C6 (amended) on a one-record store. -/
theorem C6_witness :
    ("drug_interactions" : String) ∈ tableCandidates none ∧
    lookupTable storeW1 "drug_interactions" =
      some ⟨"drug_interactions",
        .rows [⟨"abc", "xyz", "Minor", none, none⟩], .err⟩ ∧
    (tryTables storeW1 (normalizeDrugName "Abc") (normalizeDrugName "Xyz")
      (tableCandidates none)).isSome = true ∧
    (tryTables storeW1 (normalizeDrugName "Xyz") (normalizeDrugName "Abc")
      (tableCandidates none)).isSome = true :=
  ⟨by decide, by decide,
    (C6_amended_symmetry none storeW1 "Abc" "Xyz" "drug_interactions"
      ⟨"drug_interactions", .rows [⟨"abc", "xyz", "Minor", none, none⟩], .err⟩
      (by decide) (by decide) (by decide) (by decide)
      (Or.inl ⟨⟨"abc", "xyz", "Minor", none, none⟩, by decide,
        by decide, by decide⟩)).1,
    (C6_amended_symmetry none storeW1 "Abc" "Xyz" "drug_interactions"
      ⟨"drug_interactions", .rows [⟨"abc", "xyz", "Minor", none, none⟩], .err⟩
      (by decide) (by decide) (by decide) (by decide)
      (Or.inl ⟨⟨"abc", "xyz", "Minor", none, none⟩, by decide,
        by decide, by decide⟩)).2⟩

end MediMatch
